import Mathlib

/-!
Verification development for the AI Job Hunt Commander repository.

The Python sources are shallowly embedded over exact data:
Python `str` is modelled as `List Char` (all texts appearing in the
modelled code paths are ASCII), `float` scores as `ℚ`, SQLite tables as
Lean lists of row structures, and fallible calls as `Except`/`Option`
values supplied by the environment.  Every definition is translated
from the corresponding source function; file and line references are
given in the doc comments.
-/

namespace PyStr

/-- Python strings, modelled as lists of characters. -/
abbrev Str := List Char

/-- ASCII lower-casing of one character, as CPython `str.lower` acts on
ASCII letters (every text reaching the modelled code paths is ASCII). -/
def lowerChar (c : Char) : Char :=
  if 65 ≤ c.toNat && c.toNat ≤ 90 then Char.ofNat (c.toNat + 32) else c

/-- Python `s.lower()` restricted to ASCII strings. -/
def pyLower (s : Str) : Str := s.map lowerChar

/-- Whitespace set stripped by CPython `str.strip()` (ASCII part). -/
def isPySpace (c : Char) : Bool :=
  c == ' ' || c == '\t' || c == '\n' || c == '\r' || c.toNat == 11 || c.toNat == 12

/-- Python `s.strip()`. -/
def pyStrip (s : Str) : Str :=
  ((s.dropWhile isPySpace).reverse.dropWhile isPySpace).reverse

/-- Helper: the first list starts with the second one. -/
def startsWith : Str → Str → Bool
  | _, [] => true
  | [], _ :: _ => false
  | a :: as, b :: bs => a == b && startsWith as bs

/-- Python `kw in text` (substring containment). -/
def hasSubstr : Str → Str → Bool
  | t, kw =>
    if startsWith t kw then true
    else
      match t with
      | [] => false
      | _ :: rest => hasSubstr rest kw

/-- Python `' '.join(xs)`. -/
def joinSpace : List Str → Str
  | [] => []
  | [s] => s
  | s :: rest => s ++ ' ' :: joinSpace rest

/-- Maximal runs of decimal digits in a string, as `re.findall(r"\d+", s)`.
The accumulator holds the current run, reversed. -/
def digitRunsAux : Str → Str → List Str
  | [], cur => if cur.isEmpty then [] else [cur.reverse]
  | c :: rest, cur =>
    if c.isDigit then digitRunsAux rest (c :: cur)
    else if cur.isEmpty then digitRunsAux rest []
    else cur.reverse :: digitRunsAux rest []

/-- Python `re.findall(r"\d+", s)`. -/
def digitRuns (s : Str) : List Str := digitRunsAux s []

/-- Python `int(s)` on a string of decimal digits. -/
def strToNat (s : Str) : Nat :=
  s.foldl (fun n c => n * 10 + (c.toNat - 48)) 0

end PyStr

open PyStr

namespace IntelligentFilter

/-! Embedding of `src/src/intelligent_filter.py`.

`ScoringResult` (lines 25-38) carries the per-dimension scores; the
free-text `reasoning` field is presentational and not modelled.  The
scoring weights and keyword tables are `_load_scoring_criteria`
(lines 72-107) verbatim. -/

/-- The slice of `JobOpportunity` read by the filter: `title`, `company`,
`salary_range`, `description`, `requirements`, `technologies`, and the
`discovered_at` stamp used by ranking. -/
structure Job where
  title : Str
  company : Str
  salary_range : Option Str
  description : Str
  requirements : List Str
  technologies : List Str
  discovered_at : Str
deriving DecidableEq, Repr

/-- Source `ScoringResult` dataclass (intelligent_filter.py lines 25-38). -/
structure ScoringResult where
  overall_score : ℚ
  confidence_level : ℚ
  technical_score : ℚ
  transition_score : ℚ
  culture_score : ℚ
  growth_score : ℚ
  compensation_score : ℚ
  action_recommendation : Str
  keywords_matched : List Str
  red_flags : List Str
deriving DecidableEq, Repr

/-- Source `self.ai_keywords` (lines 75-80). -/
def aiKeywords : List Str :=
  ["machine learning".data, "ml".data, "artificial intelligence".data, "ai".data,
   "deep learning".data, "neural networks".data, "tensorflow".data, "pytorch".data,
   "scikit-learn".data, "pandas".data, "numpy".data, "data science".data, "nlp".data,
   "computer vision".data, "automation".data, "python".data, "jupyter".data,
   "model deployment".data, "mlops".data, "data pipeline".data]

/-- Source `self.infrastructure_keywords` (lines 82-86). -/
def infrastructureKeywords : List Str :=
  ["kubernetes".data, "docker".data, "aws".data, "azure".data, "gcp".data,
   "terraform".data, "ansible".data, "jenkins".data, "ci/cd".data, "devops".data,
   "monitoring".data, "prometheus".data, "grafana".data, "linux".data, "bash".data,
   "networking".data, "security".data, "sre".data, "site reliability".data]

/-- Source `self.growth_keywords` (lines 88-92). -/
def growthKeywords : List Str :=
  ["startup".data, "scale-up".data, "learning".data, "mentorship".data, "training".data,
   "conference budget".data, "education".data, "certification".data,
   "career development".data, "advancement".data, "leadership".data, "team lead".data,
   "senior".data, "principal".data]

/-- Source `self.red_flag_keywords` (lines 94-98). -/
def redFlagKeywords : List Str :=
  ["unpaid".data, "volunteer".data, "commission only".data, "no benefits".data,
   "long hours".data, "weekend work".data, "on-call 24/7".data, "toxic".data,
   "high pressure".data, "fast-paced environment".data]

/-- Source `self.scoring_weights` (lines 100-107). -/
def wTechnical : ℚ := 40 / 100

/-- Weight of the transition dimension. -/
def wTransition : ℚ := 25 / 100

/-- Weight of the culture dimension. -/
def wCulture : ℚ := 20 / 100

/-- Weight of the growth dimension. -/
def wGrowth : ℚ := 10 / 100

/-- Weight of the compensation dimension. -/
def wCompensation : ℚ := 5 / 100

/-- The weights dictionary as an association list, mirroring
`self.scoring_weights`. -/
def scoringWeights : List (Str × ℚ) :=
  [("technical".data, wTechnical), ("transition".data, wTransition),
   ("culture".data, wCulture), ("growth".data, wGrowth),
   ("compensation".data, wCompensation)]

/-- Python `round(x, 1)` modelled as round-half-up on exact rationals.
CPython rounds binary floats half-to-even, which can differ by one
tenth exactly at a half boundary; every theorem below is stated so
that a deviation of at most one twentieth does not affect it. -/
def round1 (q : ℚ) : ℚ := (⌊q * 10 + 1 / 2⌋ : ℚ) / 10

/-- The combined lower-cased text scanned by the fallback scorer
(line 231). -/
def jobText (j : Job) : Str :=
  pyLower (j.title ++ ' ' :: j.description ++ ' ' :: joinSpace j.requirements
    ++ ' ' :: joinSpace j.technologies)

/-- Count of keywords from a table occurring in a text (substring
containment, as Python `kw in job_text`). -/
def keywordMatches (table : List Str) (text : Str) : Nat :=
  table.countP (fun kw => hasSubstr text kw)

/-- Source `_score_technical_relevance` (lines 287-296). -/
def scoreTechnicalRelevance (text : Str) : ℚ :=
  let aiMatches : ℚ := keywordMatches aiKeywords text
  let infraMatches : ℚ := keywordMatches infrastructureKeywords text
  let aiScore := min (aiMatches * (3 / 2)) 7
  let infraBonus := min (infraMatches * (1 / 2)) 3
  min (aiScore + infraBonus) 10

/-- Source `transition_terms` local list in `_score_transition_fit` (lines 301-302). -/
def transitionTerms : List Str :=
  ["junior".data, "associate".data, "entry".data, "transition".data, "bootcamp".data,
   "new grad".data, "career change".data, "infrastructure".data, "devops to ai".data]

/-- Source `senior_but_open` local list in `_score_transition_fit` (lines 305-306). -/
def seniorButOpen : List Str :=
  ["senior devops".data, "senior infrastructure".data, "platform engineer".data,
   "data platform".data, "ml platform".data, "ai platform".data]

/-- Source `_score_transition_fit` (lines 298-324). -/
def scoreTransitionFit (text : Str) (jobTitle : Str) : ℚ :=
  let titleLower := pyLower jobTitle
  if (["principal".data, "staff".data, "lead".data].any
        (fun t => hasSubstr titleLower t))
      && !(["infrastructure".data, "platform".data, "devops".data].any
        (fun t => hasSubstr titleLower t)) then 3
  else if transitionTerms.any (fun t => hasSubstr text t) then 9
  else if seniorButOpen.any (fun t => hasSubstr text t) then 8
  else 6

/-- Source `positive_culture` local list in `_score_company_culture` (lines 328-329). -/
def positiveCulture : List Str :=
  ["learning".data, "growth".data, "mentorship".data, "collaboration".data,
   "work-life balance".data, "flexible".data, "remote".data, "innovative".data]

/-- Source `negative_culture` local list in `_score_company_culture` (line 330). -/
def negativeCulture : List Str :=
  ["fast-paced".data, "high pressure".data, "long hours".data, "weekend work".data]

/-- Source `_score_company_culture` (lines 326-336). -/
def scoreCompanyCulture (text : Str) : ℚ :=
  let positiveScore : ℚ := 2 * keywordMatches positiveCulture text
  let negativePenalty : ℚ := keywordMatches negativeCulture text
  max (min (5 + positiveScore - negativePenalty) 10) 1

/-- Source `_score_growth_potential` (lines 338-347). -/
def scoreGrowthPotential (text : Str) : ℚ :=
  let indicators := keywordMatches growthKeywords text
  if indicators ≥ 3 then 9
  else if indicators ≥ 1 then 7
  else 5

/-- The salary bracketing of `_score_compensation` (lines 360-370),
applied to the list of parsed 4-plus-digit numbers; an empty list
falls through to the final default return of 5. -/
def compensationBracket (validNumbers : List Nat) : ℚ :=
  match validNumbers with
  | [] => 5
  | n :: rest =>
    let maxSalary := rest.foldl max n
    if maxSalary ≥ 120000 then 8
    else if maxSalary ≥ 90000 then 6
    else if maxSalary ≥ 60000 then 4
    else 2

/-- Source `_score_compensation` (lines 349-372); the `job_text` argument is
unused by the source body and therefore omitted. -/
def scoreCompensation (salaryRange : Option Str) : ℚ :=
  match salaryRange with
  | none => 5
  | some s =>
    let numbers := digitRuns (s.filter (fun c => c ≠ ','))
    compensationBracket ((numbers.filter (fun r => r.length ≥ 4)).map strToNat)

/-- The unrounded weighted overall score of `_fallback_score_opportunity`
(lines 249-255). -/
def fallbackOverall (j : Job) : ℚ :=
  let text := jobText j
  scoreTechnicalRelevance text * wTechnical
    + scoreTransitionFit text j.title * wTransition
    + scoreCompanyCulture text * wCulture
    + scoreGrowthPotential text * wGrowth
    + scoreCompensation j.salary_range * wCompensation

/-- Recommendation strings of `_fallback_score_opportunity` (lines 262-268). -/
def fallbackRecommendation (overall : ℚ) : Str :=
  if overall ≥ 8 then "APPLY - High-priority opportunity".data
  else if overall ≥ 6 then "RESEARCH - Investigate further".data
  else "PASS - Focus on higher-scoring opportunities".data

/-- Source `_fallback_score_opportunity` (lines 226-285). -/
def fallbackScoreOpportunity (j : Job) : ScoringResult :=
  let text := jobText j
  let technical := scoreTechnicalRelevance text
  let transition := scoreTransitionFit text j.title
  let culture := scoreCompanyCulture text
  let growth := scoreGrowthPotential text
  let compensation := scoreCompensation j.salary_range
  let overall := technical * wTechnical + transition * wTransition
    + culture * wCulture + growth * wGrowth + compensation * wCompensation
  { overall_score := round1 overall
    confidence_level := 6 / 10
    technical_score := technical
    transition_score := transition
    culture_score := culture
    growth_score := growth
    compensation_score := compensation
    action_recommendation := fallbackRecommendation overall
    keywords_matched :=
      ((aiKeywords ++ infrastructureKeywords).filter
        (fun kw => hasSubstr text kw)).take 10
    red_flags := redFlagKeywords.filter (fun f => hasSubstr text f) }

/-- The dictionary parsed from the model response in `_parse_ai_response`
(lines 197-219): each field is optional, defaults are applied with
`.get`. -/
structure AiData where
  technical_score : Option ℚ
  transition_score : Option ℚ
  culture_score : Option ℚ
  growth_score : Option ℚ
  compensation_score : Option ℚ
  confidence : Option ℚ
  keywords_matched : Option (List Str)
  red_flags : Option (List Str)
  recommendation : Option Str
deriving DecidableEq, Repr

/-- Source `_parse_ai_response` on a successfully extracted JSON object
(lines 199-220); a raised parse failure instead falls back to
`_fallback_score_opportunity`, see `aiScoreResult`. -/
def parseAiResponse (d : AiData) : ScoringResult :=
  let technical := d.technical_score.getD 5
  let transition := d.transition_score.getD 5
  let culture := d.culture_score.getD 5
  let growth := d.growth_score.getD 5
  let compensation := d.compensation_score.getD 5
  let overall := technical * wTechnical + transition * wTransition
    + culture * wCulture + growth * wGrowth + compensation * wCompensation
  { overall_score := round1 overall
    confidence_level := d.confidence.getD (8 / 10)
    technical_score := technical
    transition_score := transition
    culture_score := culture
    growth_score := growth
    compensation_score := compensation
    action_recommendation := d.recommendation.getD "RESEARCH".data
    keywords_matched := d.keywords_matched.getD []
    red_flags := d.red_flags.getD [] }

/-- Source `_ai_score_opportunity` composed with `_parse_ai_response`
(lines 118-150 and 189-224): a well-formed response is parsed, any
failure (API error or parse error) falls back to the rule-based path. -/
def aiScoreResult (response : Option AiData) (j : Job) : ScoringResult :=
  match response with
  | some d => parseAiResponse d
  | none => fallbackScoreOpportunity j

/-- The adjusted primary score inside `ranking_key` of
`rank_opportunities` (lines 384-405): overall score, +0.5 for
high-confidence technical fits, +0.3 for transition fits, −0.2 per red
flag when any are present. -/
def adjustedScore (p : Job × ScoringResult) : ℚ :=
  let score := p.2
  let afterConfidence :=
    if score.confidence_level > 8 / 10 ∧ score.technical_score ≥ 7
    then score.overall_score + 1 / 2 else score.overall_score
  let afterTransition :=
    if score.transition_score ≥ 8 then afterConfidence + 3 / 10
    else afterConfidence
  if score.red_flags ≠ [] then
    afterTransition - score.red_flags.length * (2 / 10)
  else afterTransition

/-- Source `ranking_key` (lines 384-405).  `recency_bonus` is 0.01 whenever the
job object has a `discovered_at` attribute; `JobOpportunity` is a
dataclass with that field, so the bonus is the constant 0.01. -/
def rankingKey (p : Job × ScoringResult) : ℚ :=
  -(adjustedScore p + 1 / 100)

/-- The comparison `sorted` uses: ascending `ranking_key`.  Python
`sorted` is a stable mergesort; `List.insertionSort` with a non-strict
total preorder is stable in the same sense (ties keep input order), so
the two agree on every input. -/
def rankLe (p q : Job × ScoringResult) : Prop := rankingKey p ≤ rankingKey q

instance : DecidableRel rankLe := fun p q =>
  inferInstanceAs (Decidable (rankingKey p ≤ rankingKey q))

instance : IsTotal (Job × ScoringResult) rankLe :=
  ⟨fun p q => le_total (rankingKey p) (rankingKey q)⟩

instance : IsTrans (Job × ScoringResult) rankLe :=
  ⟨fun _ _ _ hab hbc => le_trans hab hbc⟩

/-- Source `rank_opportunities` (lines 374-410). -/
def rankOpportunities (pairs : List (Job × ScoringResult)) :
    List (Job × ScoringResult) :=
  List.insertionSort rankLe pairs

end IntelligentFilter

namespace MD5

/-! RFC 1321 MD5 over byte lists, used by `hashlib.md5` in
`job_discovery_engine.py`.  Words are naturals reduced modulo 2^32. -/

/-- The 32-bit modulus. -/
def M32 : Nat := 4294967296

/-- 32-bit addition. -/
def add32 (a b : Nat) : Nat := (a + b) % M32

/-- 32-bit left rotation (inputs below 2^32). -/
def rotl32 (x s : Nat) : Nat := ((x <<< s) % M32) ||| (x >>> (32 - s))

/-- 32-bit bitwise complement. -/
def not32 (x : Nat) : Nat := x ^^^ (M32 - 1)

/-- The sine-derived round constants `K[0..63]`. -/
def kTable : List Nat :=
  [3614090360, 3905402710, 606105819, 3250441966, 4118548399, 1200080426,
   2821735955, 4249261313, 1770035416, 2336552879, 4294925233, 2304563134,
   1804603682, 4254626195, 2792965006, 1236535329, 4129170786, 3225465664,
   643717713, 3921069994, 3593408605, 38016083, 3634488961, 3889429448,
   568446438, 3275163606, 4107603335, 1163531501, 2850285829, 4243563512,
   1735328473, 2368359562, 4294588738, 2272392833, 1839030562, 4259657740,
   2763975236, 1272893353, 4139469664, 3200236656, 681279174, 3936430074,
   3572445317, 76029189, 3654602809, 3873151461, 530742520, 3299628645,
   4096336452, 1126891415, 2878612391, 4237533241, 1700485571, 2399980690,
   4293915773, 2240044497, 1873313359, 4264355552, 2734768916, 1309151649,
   4149444226, 3174756917, 718787259, 3951481745]

/-- The per-round left-rotation amounts `s[0..63]`. -/
def sTable : List Nat :=
  [7, 12, 17, 22, 7, 12, 17, 22, 7, 12, 17, 22, 7, 12, 17, 22,
   5, 9, 14, 20, 5, 9, 14, 20, 5, 9, 14, 20, 5, 9, 14, 20,
   4, 11, 16, 23, 4, 11, 16, 23, 4, 11, 16, 23, 4, 11, 16, 23,
   6, 10, 15, 21, 6, 10, 15, 21, 6, 10, 15, 21, 6, 10, 15, 21]

/-- MD5 padding: append 0x80, zero bytes up to 56 mod 64, then the
64-bit little-endian bit length. -/
def pad (msg : List Nat) : List Nat :=
  let bitLen := (msg.length * 8) % (2 ^ 64)
  let zeros := (119 - msg.length % 64) % 64
  msg ++ [128] ++ List.replicate zeros 0
    ++ ((List.range 8).map (fun i => (bitLen >>> (8 * i)) % 256))

/-- Little-endian 32-bit word `g` of a 64-byte block. -/
def blockWord (block : List Nat) (g : Nat) : Nat :=
  block.getD (4 * g) 0 + 256 * block.getD (4 * g + 1) 0
    + 65536 * block.getD (4 * g + 2) 0 + 16777216 * block.getD (4 * g + 3) 0

/-- One of the 64 MD5 rounds applied to the state `(a, b, c, d)`. -/
def round (block : List Nat) (st : Nat × Nat × Nat × Nat) (i : Nat) :
    Nat × Nat × Nat × Nat :=
  let (a, b, c, d) := st
  let f :=
    if i < 16 then (b &&& c) ||| (not32 b &&& d)
    else if i < 32 then (d &&& b) ||| (not32 d &&& c)
    else if i < 48 then b ^^^ c ^^^ d
    else c ^^^ (b ||| not32 d)
  let g :=
    if i < 16 then i
    else if i < 32 then (5 * i + 1) % 16
    else if i < 48 then (3 * i + 5) % 16
    else (7 * i) % 16
  let rotated := rotl32 ((a + f + kTable.getD i 0 + blockWord block g) % M32)
    (sTable.getD i 0)
  (d, add32 b rotated, b, c)

/-- Process one 64-byte block: 64 rounds, then add into the state. -/
def processBlock (st : Nat × Nat × Nat × Nat) (block : List Nat) :
    Nat × Nat × Nat × Nat :=
  let (a0, b0, c0, d0) := st
  let (a, b, c, d) := (List.range 64).foldl (round block) st
  (add32 a0 a, add32 b0 b, add32 c0 c, add32 d0 d)

/-- MD5 state after all blocks of the padded message. -/
def finalState (msg : List Nat) : Nat × Nat × Nat × Nat :=
  let padded := pad msg
  (List.range (padded.length / 64)).foldl
    (fun st i => processBlock st ((padded.drop (64 * i)).take 64))
    (1732584193, 4023233417, 2562383102, 271733878)

/-- Little-endian byte decomposition of a 32-bit word. -/
def wordBytes (w : Nat) : List Nat :=
  [w % 256, (w >>> 8) % 256, (w >>> 16) % 256, (w >>> 24) % 256]

/-- Lowercase hex digit. -/
def hexDigit (n : Nat) : Char := "0123456789abcdef".data.getD n '0'

/-- Source `hashlib.md5(msg).hexdigest()`: the 32-character lowercase hex
digest. -/
def hexDigest (msg : List Nat) : Str :=
  let (a, b, c, d) := finalState msg
  ((wordBytes a ++ wordBytes b ++ wordBytes c ++ wordBytes d).map
    (fun byte => [hexDigit (byte / 16), hexDigit (byte % 16)])).flatten

end MD5

namespace JobDiscovery

/-! Embedding of `src/src/job_discovery_engine.py`: the
`JobOpportunity` record, job identity, deduplication, and the SQLite
`JobDatabase` modelled as a list of rows. -/

/-- The `JobOpportunity` dataclass (lines 36-65); `ai_analysis` is kept
as the serialized JSON text the database stores. -/
structure JobOpportunity where
  title : Str
  company : Str
  location : Str
  salary_range : Option Str
  job_type : Str
  source : Str
  discovered_at : Str
  url : Str
  job_id : Str
  description : Str
  requirements : List Str
  technologies : List Str
  relevance_score : ℚ := 0
  priority_score : ℚ := 0
  transition_score : ℚ := 0
  status : Str := "discovered".data
  ai_analysis : Option Str := none
  application_package : Option Str := none
deriving DecidableEq, Repr

/-- UTF-8 encoding of an ASCII string (`str.encode()`): byte values
equal code points below 128, and every identity input here is ASCII. -/
def strBytes (s : Str) : List Nat := s.map Char.toNat

/-- Source `JobDiscoveryEngine._generate_job_id` (lines 593-596):
the MD5 hex digest of lower-cased title, underscore,
lower-cased company, underscore, source — truncated to 12 characters. -/
def generateJobId (title company source : Str) : Str :=
  (MD5.hexDigest (strBytes
    (pyLower title ++ '_' :: pyLower company ++ '_' :: source))).take 12

/-- Source `BaseScraper._generate_job_id` (lines 251-254), textually the same
computation as the engine copy. -/
def scraperGenerateJobId (title company source : Str) : Str :=
  (MD5.hexDigest (strBytes
    (pyLower title ++ '_' :: pyLower company ++ '_' :: source))).take 12

/-- The similarity key of `_deduplicate_jobs` (line 605):
lower-cased stripped title, underscore, lower-cased
stripped company. -/
def dedupKey (j : JobOpportunity) : Str :=
  pyStrip (pyLower j.title) ++ '_' :: pyStrip (pyLower j.company)

/-- Source `source_priority` (line 613) with `.get(source, 0)` fallback. -/
def sourcePriority (s : Str) : Nat :=
  if s = "linkedin".data then 3
  else if s = "indeed".data then 2
  else if s = "company".data then 1
  else if s = "hn_jobs".data then 1
  else 0

/-- Replace the value stored under a key in the `seen_jobs` dictionary. -/
def updateKey (seen : List (Str × JobOpportunity)) (k : Str)
    (v : JobOpportunity) : List (Str × JobOpportunity) :=
  seen.map (fun e => if e.1 = k then (k, v) else e)

/-- One iteration of the `_deduplicate_jobs` loop (lines 603-619);
the state is the `seen_jobs` dictionary (as an association list) and
the `unique_jobs` list.  `unique_jobs.remove(existing_job)` deletes
the first element equal to the existing job. -/
def dedupStep (acc : List (Str × JobOpportunity) × List JobOpportunity)
    (job : JobOpportunity) :
    List (Str × JobOpportunity) × List JobOpportunity :=
  let key := dedupKey job
  match acc.1.find? (fun e => decide (e.1 = key)) with
  | none => (acc.1 ++ [(key, job)], acc.2 ++ [job])
  | some entry =>
    let existing := entry.2
    if sourcePriority job.source > sourcePriority existing.source then
      (updateKey acc.1 key job, acc.2.erase existing ++ [job])
    else acc

/-- Source `_deduplicate_jobs` (lines 598-622). -/
def deduplicateJobs (jobs : List JobOpportunity) : List JobOpportunity :=
  (jobs.foldl dedupStep ([], [])).2

/-- Source `JobDatabase.save_job` (lines 135-158): `INSERT OR REPLACE` keyed
on the `job_id` primary key, modelled on the list of stored rows. -/
def saveJob (db : List JobOpportunity) (j : JobOpportunity) :
    List JobOpportunity :=
  db.filter (fun r => ! decide (r.job_id = j.job_id)) ++ [j]

/-- The ordering of `ORDER BY relevance_score DESC, discovered_at DESC`
(lines 164-168).  `discovered_at` is a TEXT column compared under
SQLite's default BINARY collation, which on these ASCII ISO timestamps
is the lexicographic order on character lists. -/
def rowOrder (r1 r2 : JobOpportunity) : Prop :=
  r2.relevance_score < r1.relevance_score ∨
    (r1.relevance_score = r2.relevance_score ∧ r2.discovered_at ≤ r1.discovered_at)

instance : DecidableRel rowOrder := fun r1 r2 =>
  inferInstanceAs (Decidable (r2.relevance_score < r1.relevance_score ∨
    (r1.relevance_score = r2.relevance_score ∧
      r2.discovered_at ≤ r1.discovered_at)))

instance : IsTotal JobOpportunity rowOrder := by
  constructor
  intro r1 r2
  rcases lt_trichotomy r1.relevance_score r2.relevance_score with h | h | h
  · exact Or.inr (Or.inl h)
  · rcases le_total r1.discovered_at r2.discovered_at with hd | hd
    · exact Or.inr (Or.inr ⟨h.symm, hd⟩)
    · exact Or.inl (Or.inr ⟨h, hd⟩)
  · exact Or.inl (Or.inl h)

instance : IsTrans JobOpportunity rowOrder := by
  constructor
  intro a b c hab hbc
  rcases hab with h1 | ⟨he1, hd1⟩
  · rcases hbc with h2 | ⟨he2, hd2⟩
    · exact Or.inl (lt_trans h2 h1)
    · exact Or.inl (by rw [← he2]; exact h1)
  · rcases hbc with h2 | ⟨he2, hd2⟩
    · exact Or.inl (by rw [he1]; exact h2)
    · exact Or.inr ⟨he1.trans he2, le_trans hd2 hd1⟩

/-- The `LIMIT` clause is appended only when `limit` is truthy
(lines 169-170): Python `if limit:` treats both `None` and `0` as no
limit. -/
def pyLimit (rows : List JobOpportunity) : Option Nat → List JobOpportunity
  | none => rows
  | some n => if n = 0 then rows else rows.take n

/-- Source `JobDatabase.get_jobs_by_status` (lines 160-176): filter rows by
status, sort by `rowOrder` (SQLite fixes the order completely whenever
no two rows agree on both sort keys), apply the limit. -/
def getJobsByStatus (db : List JobOpportunity) (status : Str)
    (limit : Option Nat) : List JobOpportunity :=
  pyLimit
    (List.insertionSort rowOrder
      (db.filter (fun r => decide (r.status = status)))) limit

end JobDiscovery

namespace MainEngine

/-! Embedding of `src/src/main_application_engine.py`: operating-mode
selection in `ApplicationEngine.__init__` and the routing plus
fallback structure of `process_job_application`.  External effects
(the parallel run, the AI engine run) enter as `Except` outcomes in a
`RunEnv`; the template components (`AICompanyResearcher`,
`EnhancedResumeEngine`, `IntelligentCoverLetterGenerator`) build their
results from local template data without raising, so their outputs are
plain values of the environment. -/

/-- Exceptions that can cross the modelled boundaries.
`attributeMissingAiEngine` is the `AttributeError` raised when
`self.ai_engine` is read: `__init__` (lines 43-77) never assigns that
attribute in any branch. -/
inductive PyErr where
  | attributeMissingAiEngine
  | raised (msg : Str)
deriving DecidableEq, Repr

/-- Job information handed to the engine (the `job_data` dictionary). -/
structure JobData where
  title : Str
  company : Str
  description : Str
  url : Option Str
deriving DecidableEq, Repr

/-- Result of `ParallelAIEngine.generate_sophisticated_application` as
consumed by `_process_with_parallel_ai_engine` (only the fields the
package records are kept abstract here). -/
structure ParallelResult where
  sophistication_score : ℚ
  generation_time : ℚ
  api_calls_made : Nat
deriving DecidableEq, Repr

/-- Result of `ai_engine.generate_ai_application` as consumed by
`_process_with_ai_engine`. -/
structure AiResult where
  ai_quality_score : ℚ
deriving DecidableEq, Repr

/-- Template-mode component results (company intelligence, resume
customization, cover letter); their content is irrelevant to the
claims, only that they are produced without raising. -/
structure TemplateResults where
  company_intelligence : Str
  resume_customization : Str
  cover_letter : Str
  application_score : ℚ
deriving DecidableEq, Repr

/-- The mode-dependent content of the returned application package:
each branch of `process_job_application` builds a dictionary with a
different shape. -/
inductive PackageContent where
  | parallelAi (result : ParallelResult)
  | aiPowered (result : AiResult)
  | template (results : TemplateResults)
deriving DecidableEq, Repr

/-- The application package dictionary.  `mode` is the value of the
package's optional `'mode'` key: `_process_with_parallel_ai_engine`
sets `'SOPHISTICATED_PARALLEL_AI'` (line 159),
`_process_with_ai_engine` sets `'AI_POWERED'` (line 210), and the
template-mode `_create_application_package` (lines 342-352) stores no
`'mode'` key at all. -/
structure AppPackage where
  job_information : JobData
  mode : Option Str
  content : PackageContent
deriving DecidableEq, Repr

/-- External outcomes of one `process_job_application` run. -/
structure RunEnv where
  parallelOutcome : Except Str ParallelResult
  aiOutcome : Except Str AiResult
  templateResults : TemplateResults
deriving Repr

/-- Engine state produced by `ApplicationEngine.__init__`
(lines 43-77): with an API key the parallel engine is constructed and
both mode flags are set; without one only the template components are
constructed.  No branch assigns `self.ai_engine`. -/
structure ApplicationEngine where
  aiMode : Bool
  parallelMode : Bool
  hasParallelEngine : Bool
  hasAiEngine : Bool
  hasTemplateComponents : Bool
deriving DecidableEq, Repr

/-- Source `ApplicationEngine.__init__` as a function of API-key presence. -/
def initEngine (hasApiKey : Bool) : ApplicationEngine :=
  if hasApiKey then
    { aiMode := true, parallelMode := true, hasParallelEngine := true,
      hasAiEngine := false, hasTemplateComponents := false }
  else
    { aiMode := false, parallelMode := false, hasParallelEngine := false,
      hasAiEngine := false, hasTemplateComponents := true }

/-- Source `_process_with_ai_engine` (lines 189-225): reads `self.ai_engine`
(raising `AttributeError` when it was never assigned), then runs the
AI generation; the body contains no exception handler, so a raised
generation error propagates. -/
def processWithAiEngine (eng : ApplicationEngine) (env : RunEnv)
    (jd : JobData) : Except PyErr AppPackage :=
  if eng.hasAiEngine then
    match env.aiOutcome with
    | .ok r =>
      .ok { job_information := jd, mode := some "AI_POWERED".data,
            content := .aiPowered r }
    | .error e => .error (.raised e)
  else .error .attributeMissingAiEngine

/-- Source `_process_with_parallel_ai_engine` (lines 131-187): the whole run
is wrapped in `try`, and any exception falls back to
`_process_with_ai_engine`. -/
def processWithParallelAiEngine (eng : ApplicationEngine) (env : RunEnv)
    (jd : JobData) : Except PyErr AppPackage :=
  match env.parallelOutcome with
  | .ok r =>
    .ok { job_information := jd,
          mode := some "SOPHISTICATED_PARALLEL_AI".data,
          content := .parallelAi r }
  | .error _ => processWithAiEngine eng env jd

/-- Source `_process_with_template_mode` together with
`_create_application_package` (lines 227-268 and 329-388): template
research, resume and cover-letter generation from local data, packaged
into a dictionary that carries no `'mode'` key. -/
def processWithTemplateMode (env : RunEnv) (jd : JobData) :
    Except PyErr AppPackage :=
  .ok { job_information := jd, mode := none,
        content := .template env.templateResults }

/-- The mode routing of `process_job_application` (lines 123-129). -/
def processJobApplication (eng : ApplicationEngine) (env : RunEnv)
    (jd : JobData) : Except PyErr AppPackage :=
  if eng.aiMode && eng.parallelMode then
    processWithParallelAiEngine eng env jd
  else if eng.aiMode then
    processWithAiEngine eng env jd
  else
    processWithTemplateMode env jd

end MainEngine

namespace ParallelAI

/-! Embedding of `src/src/parallel_ai_engine.py`: the per-task
exception barrier `_sophisticated_gpt4_call`, the two fan-out phases,
and the final assembly `_integrate_sophisticated_application`.  The
external completion API enters as one `Except` outcome per task. -/

/-- The fallback string substituted for a failed task (line 352):
it names the task. -/
def fallbackString (taskName : Str) : Str :=
  '[' :: taskName ++ " generation failed - implementing fallback strategy]".data

/-- Source `_sophisticated_gpt4_call` (lines 325-352): a successful response
is stripped; any raised exception is caught at the task level and
replaced by the marked fallback string. -/
def sophisticatedGpt4Call (outcome : Except Str Str) (taskName : Str) : Str :=
  match outcome with
  | .ok content => pyStrip content
  | .error _ => fallbackString taskName

/-- External outcomes of the four phase-1 research tasks
(lines 210-246). -/
structure ResearchOutcomes where
  companyIntelligence : Except Str Str
  competitiveAnalysis : Except Str Str
  technicalAlignment : Except Str Str
  strategicPositioning : Except Str Str
deriving Repr

/-- External outcomes of the five phase-2 content tasks
(lines 268-312). -/
structure ContentOutcomes where
  coverLetter : Except Str Str
  executiveSummary : Except Str Str
  interviewPrep : Except Str Str
  successStrategy : Except Str Str
  careerNarrative : Except Str Str
deriving Repr

/-- The `research_intelligence` dictionary returned by phase 1
(lines 251-257). -/
structure ResearchIntelligence where
  company_intelligence : Str
  competitive_analysis : Str
  technical_alignment : Str
  strategic_positioning : Str
deriving DecidableEq, Repr

/-- The `content_suite` dictionary returned by phase 2 (lines 317-323). -/
structure ContentSuite where
  cover_letter : Str
  executive_summary : Str
  interview_preparation : Str
  success_strategy : Str
  career_narrative : Str
deriving DecidableEq, Repr

/-- Source `_parallel_deep_research_phase` (lines 206-257): the four tasks are
awaited together with `asyncio.gather`; each task catches its own
exception inside `_sophisticated_gpt4_call`, so every slot of the
result is filled regardless of individual failures. -/
def parallelDeepResearchPhase (o : ResearchOutcomes) : ResearchIntelligence :=
  { company_intelligence :=
      sophisticatedGpt4Call o.companyIntelligence "company_intelligence".data
    competitive_analysis :=
      sophisticatedGpt4Call o.competitiveAnalysis "competitive_analysis".data
    technical_alignment :=
      sophisticatedGpt4Call o.technicalAlignment "technical_alignment".data
    strategic_positioning :=
      sophisticatedGpt4Call o.strategicPositioning "strategic_positioning".data }

/-- Source `_parallel_sophisticated_content_generation` (lines 259-323), with
the same per-task isolation as phase 1. -/
def parallelContentGeneration (o : ContentOutcomes) : ContentSuite :=
  { cover_letter :=
      sophisticatedGpt4Call o.coverLetter "sophisticated_cover_letter".data
    executive_summary :=
      sophisticatedGpt4Call o.executiveSummary "executive_summary".data
    interview_preparation :=
      sophisticatedGpt4Call o.interviewPrep "advanced_interview_prep".data
    success_strategy :=
      sophisticatedGpt4Call o.successStrategy "success_strategy".data
    career_narrative :=
      sophisticatedGpt4Call o.careerNarrative "career_narrative".data }

/-- Source `SophisticatedApplicationPackage` (lines 31-61), content and
metric fields. -/
structure SophisticatedApplicationPackage where
  job_title : Str
  company_name : Str
  executive_summary : Str
  cover_letter : Str
  strategic_positioning : Str
  interview_preparation : Str
  success_strategy : Str
  company_intelligence : Str
  competitive_analysis : Str
  technical_alignment : Str
  career_narrative : Str
  generation_time : ℚ
  sophistication_score : ℚ
  personalization_depth : ℚ
  strategic_insight_score : ℚ
  parallel_efficiency : ℚ
  api_calls_made : Nat
  optimization_level : Str
deriving DecidableEq, Repr

/-- Source `_integrate_sophisticated_application` (lines 660-692). -/
def integrateSophisticatedApplication (jobTitle companyName : Str)
    (research : ResearchIntelligence) (content : ContentSuite)
    (generationTime : ℚ) (apiCallsMade : Nat) :
    SophisticatedApplicationPackage :=
  { job_title := jobTitle
    company_name := companyName
    executive_summary := content.executive_summary
    cover_letter := content.cover_letter
    strategic_positioning := research.strategic_positioning
    interview_preparation := content.interview_preparation
    success_strategy := content.success_strategy
    company_intelligence := research.company_intelligence
    competitive_analysis := research.competitive_analysis
    technical_alignment := research.technical_alignment
    career_narrative := content.career_narrative
    generation_time := generationTime
    sophistication_score := 95 / 10
    personalization_depth := 98 / 10
    strategic_insight_score := 96 / 10
    parallel_efficiency := 1 - generationTime / 105
    api_calls_made := apiCallsMade
    optimization_level := "MAXIMUM_SOPHISTICATION".data }

/-- Source `generate_sophisticated_application` (lines 147-204) on the happy
control path: phase 1, then phase 2, then assembly.  Each phase is a
total function of its task outcomes because every task failure is
absorbed inside `_sophisticated_gpt4_call`. -/
def generateSophisticatedApplication (jobTitle companyName : Str)
    (ro : ResearchOutcomes) (co : ContentOutcomes)
    (generationTime : ℚ) (apiCallsMade : Nat) :
    SophisticatedApplicationPackage :=
  integrateSophisticatedApplication jobTitle companyName
    (parallelDeepResearchPhase ro) (parallelContentGeneration co)
    generationTime apiCallsMade

end ParallelAI

open IntelligentFilter JobDiscovery MainEngine ParallelAI

/-! Concrete instances used by counterexamples and witnesses. -/

/-- A parsed model response whose technical score is far outside the
prompt's 0-10 range; `_parse_ai_response` applies no clamping. -/
def aiDataOutOfRange : AiData :=
  { technical_score := some 50, transition_score := none,
    culture_score := none, growth_score := none,
    compensation_score := none, confidence := none,
    keywords_matched := none, red_flags := none, recommendation := none }

/-- A parsed model response with every field missing, so every
dimension takes its in-range default of 5. -/
def aiDataDefaults : AiData :=
  { technical_score := none, transition_score := none,
    culture_score := none, growth_score := none,
    compensation_score := none, confidence := none,
    keywords_matched := none, red_flags := none, recommendation := none }

/-- An opportunity whose combined text contains exactly five entries of
the AI keyword table and nothing from any other table. -/
def jobFiveAi : IntelligentFilter.Job :=
  { title := "engineer".data, company := "acme".data, salary_range := none,
    description := "tensorflow pytorch pandas numpy jupyter".data,
    requirements := [], technologies := [],
    discovered_at := "2025-01-01".data }

/-- A scoring result with overall 7.0, fallback confidence, no boosts,
and the given red flags. -/
def scoreSeven (flags : List Str) : ScoringResult :=
  { overall_score := 7, confidence_level := 6 / 10, technical_score := 5,
    transition_score := 5, culture_score := 5, growth_score := 5,
    compensation_score := 5,
    action_recommendation := "RESEARCH - Investigate further".data,
    keywords_matched := [], red_flags := flags }

/-- Ranking example, job A: overall 7.0 with two red flags. -/
def pairJobA : IntelligentFilter.Job × ScoringResult :=
  ({ title := "job a".data, company := "acme".data, salary_range := none,
     description := [], requirements := [], technologies := [],
     discovered_at := "2025-03-01".data },
   scoreSeven ["long hours".data, "weekend work".data])

/-- Ranking example, job B: overall 7.0 with no red flags. -/
def pairJobB : IntelligentFilter.Job × ScoringResult :=
  ({ title := "job b".data, company := "acme".data, salary_range := none,
     description := [], requirements := [], technologies := [],
     discovered_at := "2025-03-01".data },
   scoreSeven [])

/-- Tie example: the earlier-discovered of two identically scored jobs. -/
def pairOlder : IntelligentFilter.Job × ScoringResult :=
  ({ title := "older job".data, company := "acme".data, salary_range := none,
     description := [], requirements := [], technologies := [],
     discovered_at := "2025-01-01".data }, scoreSeven [])

/-- Tie example: the newer-discovered of two identically scored jobs. -/
def pairNewer : IntelligentFilter.Job × ScoringResult :=
  ({ title := "newer job".data, company := "acme".data, salary_range := none,
     description := [], requirements := [], technologies := [],
     discovered_at := "2025-06-01".data }, scoreSeven [])

/-- A linkedin record for the deduplication example. -/
def jobLinkedin : JobDiscovery.JobOpportunity :=
  { title := "Platform Engineer".data, company := "Acme".data,
    location := "Remote".data, salary_range := none,
    job_type := "full-time".data, source := "linkedin".data,
    discovered_at := "2025-05-01T10:00:00".data,
    url := "https://linkedin.example/1".data, job_id := "aaaaaaaaaaaa".data,
    description := "desc".data, requirements := [], technologies := [] }

/-- An indeed record colliding with `jobLinkedin` on the dedup key. -/
def jobIndeed : JobDiscovery.JobOpportunity :=
  { title := "Platform Engineer".data, company := "Acme".data,
    location := "Remote".data, salary_range := none,
    job_type := "full-time".data, source := "indeed".data,
    discovered_at := "2025-05-02T10:00:00".data,
    url := "https://indeed.example/2".data, job_id := "bbbbbbbbbbbb".data,
    description := "other desc".data, requirements := [], technologies := [] }

/-- A stored row discovered early, score 7. -/
def rowOlder : JobDiscovery.JobOpportunity :=
  { title := "Old Role".data, company := "Acme".data, location := "Remote".data,
    salary_range := none, job_type := "full-time".data, source := "hn_jobs".data,
    discovered_at := "2025-01-01T00:00:00".data,
    url := "https://example/old".data, job_id := "cccccccccccc".data,
    description := [], requirements := [], technologies := [],
    relevance_score := 7 }

/-- A stored row discovered later, same score 7. -/
def rowNewer : JobDiscovery.JobOpportunity :=
  { title := "New Role".data, company := "Acme".data, location := "Remote".data,
    salary_range := none, job_type := "full-time".data, source := "hn_jobs".data,
    discovered_at := "2025-06-01T00:00:00".data,
    url := "https://example/new".data, job_id := "dddddddddddd".data,
    description := [], requirements := [], technologies := [],
    relevance_score := 7 }

/-- Template component outputs for the engine runs. -/
def tmplResults : TemplateResults :=
  { company_intelligence := "intel".data, resume_customization := "resume".data,
    cover_letter := "letter".data, application_score := 5 }

/-- A manually entered job for the engine runs. -/
def jdSample : JobData :=
  { title := "AI Engineer".data, company := "TechCorp AI".data,
    description := "desc".data, url := none }

/-- A run in which the parallel engine raises mid-run. -/
def envParallelFails : RunEnv :=
  { parallelOutcome := .error "api outage".data,
    aiOutcome := .ok { ai_quality_score := 8 },
    templateResults := tmplResults }

/-- A successful parallel-engine result. -/
def parallelResultSample : ParallelResult :=
  { sophistication_score := 95 / 10, generation_time := 36,
    api_calls_made := 9 }

/-- A run in which every external call succeeds. -/
def envAllOk : RunEnv :=
  { parallelOutcome := .ok parallelResultSample,
    aiOutcome := .ok { ai_quality_score := 8 },
    templateResults := tmplResults }

/-- Research outcomes in which only the competitive-analysis task
raises. -/
def researchOneFail : ResearchOutcomes :=
  { companyIntelligence := .ok "  Intel  ".data,
    competitiveAnalysis := .error "timeout".data,
    technicalAlignment := .ok "Tech".data,
    strategicPositioning := .ok "Strategy".data }

/-- Content outcomes in which only the interview-prep task raises. -/
def contentOneFail : ContentOutcomes :=
  { coverLetter := .ok "Letter".data,
    executiveSummary := .ok "Summary".data,
    interviewPrep := .error "rate limit".data,
    successStrategy := .ok "Plan".data,
    careerNarrative := .ok "Narrative".data }

/-! Helper lemmas about the scoring dimensions. -/

namespace IntelligentFilter

/-- The stored recommendation is the threshold function of the
unrounded overall score. -/
theorem fallback_reco_eq (j : Job) :
    (fallbackScoreOpportunity j).action_recommendation
      = fallbackRecommendation (fallbackOverall j) := rfl

/-- The stored overall score is the rounded unrounded overall score. -/
theorem fallback_overall_eq (j : Job) :
    (fallbackScoreOpportunity j).overall_score = round1 (fallbackOverall j) := rfl

/-- The fallback overall score, written out. -/
theorem fallbackOverall_def (j : Job) :
    fallbackOverall j
      = scoreTechnicalRelevance (jobText j) * wTechnical
        + scoreTransitionFit (jobText j) j.title * wTransition
        + scoreCompanyCulture (jobText j) * wCulture
        + scoreGrowthPotential (jobText j) * wGrowth
        + scoreCompensation j.salary_range * wCompensation := rfl

/-- The technical dimension always lands in [0, 10]. -/
theorem scoreTechnicalRelevance_mem (text : Str) :
    0 ≤ scoreTechnicalRelevance text ∧ scoreTechnicalRelevance text ≤ 10 := by
  simp only [scoreTechnicalRelevance]
  constructor
  · exact le_min
      (add_nonneg
        (le_min (mul_nonneg (Nat.cast_nonneg _) (by norm_num)) (by norm_num))
        (le_min (mul_nonneg (Nat.cast_nonneg _) (by norm_num)) (by norm_num)))
      (by norm_num)
  · exact min_le_right _ _

/-- The transition dimension always lands in [0, 10]. -/
theorem scoreTransitionFit_mem (text title : Str) :
    0 ≤ scoreTransitionFit text title ∧ scoreTransitionFit text title ≤ 10 := by
  constructor <;>
  · simp only [scoreTransitionFit]
    split_ifs <;> norm_num

/-- The culture dimension always lands in [0, 10]. -/
theorem scoreCompanyCulture_mem (text : Str) :
    0 ≤ scoreCompanyCulture text ∧ scoreCompanyCulture text ≤ 10 := by
  simp only [scoreCompanyCulture]
  exact ⟨le_trans (by norm_num) (le_max_right _ 1),
    max_le (min_le_right _ _) (by norm_num)⟩

/-- The growth dimension always lands in [0, 10]. -/
theorem scoreGrowthPotential_mem (text : Str) :
    0 ≤ scoreGrowthPotential text ∧ scoreGrowthPotential text ≤ 10 := by
  simp only [scoreGrowthPotential]
  split_ifs <;> norm_num

/-- The compensation dimension always lands in [0, 10]. -/
theorem compensationBracket_mem (l : List Nat) :
    0 ≤ compensationBracket l ∧ compensationBracket l ≤ 10 := by
  rcases l with _ | ⟨n, rest⟩
  · simp only [compensationBracket]
    norm_num
  · simp only [compensationBracket]
    split_ifs <;> norm_num

/-- The compensation dimension always lands in [0, 10]. -/
theorem scoreCompensation_mem (s : Option Str) :
    0 ≤ scoreCompensation s ∧ scoreCompensation s ≤ 10 := by
  rcases s with _ | s
  · simp only [scoreCompensation]
    norm_num
  · simp only [scoreCompensation]
    exact compensationBracket_mem _

/-- A weighted combination of dimension values from [0, 10] with the
filter's weights lies in [0, 10]. -/
theorem weighted_combination_mem {t tr cu g co : ℚ}
    (ht : 0 ≤ t ∧ t ≤ 10) (htr : 0 ≤ tr ∧ tr ≤ 10) (hcu : 0 ≤ cu ∧ cu ≤ 10)
    (hg : 0 ≤ g ∧ g ≤ 10) (hco : 0 ≤ co ∧ co ≤ 10) :
    0 ≤ t * wTechnical + tr * wTransition + cu * wCulture + g * wGrowth
        + co * wCompensation
      ∧ t * wTechnical + tr * wTransition + cu * wCulture + g * wGrowth
        + co * wCompensation ≤ 10 := by
  obtain ⟨ht0, ht1⟩ := ht
  obtain ⟨htr0, htr1⟩ := htr
  obtain ⟨hcu0, hcu1⟩ := hcu
  obtain ⟨hg0, hg1⟩ := hg
  obtain ⟨hco0, hco1⟩ := hco
  simp only [wTechnical, wTransition, wCulture, wGrowth, wCompensation]
  constructor <;> linarith

/-- Rounding to one decimal keeps a value of [0, 10] inside [0, 10]. -/
theorem round1_mem {q : ℚ} (h0 : 0 ≤ q) (h10 : q ≤ 10) :
    0 ≤ round1 q ∧ round1 q ≤ 10 := by
  unfold round1
  constructor
  · have hf : (0 : ℤ) ≤ ⌊q * 10 + 1 / 2⌋ := Int.floor_nonneg.mpr (by linarith)
    have : (0 : ℚ) ≤ (⌊q * 10 + 1 / 2⌋ : ℚ) := by exact_mod_cast hf
    linarith
  · have hle : q * 10 + 1 / 2 ≤ (201 : ℚ) / 2 := by linarith
    have hf : ⌊q * 10 + 1 / 2⌋ ≤ ⌊(201 : ℚ) / 2⌋ := Int.floor_le_floor hle
    have h201 : ⌊(201 : ℚ) / 2⌋ = 100 := by norm_num
    have : (⌊q * 10 + 1 / 2⌋ : ℚ) ≤ 100 := by
      rw [h201] at hf
      exact_mod_cast hf
    linarith

end IntelligentFilter

/-- C4 counterexample: feeding `_parse_ai_response` a structurally valid
response whose technical score is 50 yields a stored overall score of
23, outside [0, 10] — the parser performs no clamping. -/
theorem C4_counterexample_parse_out_of_range :
    10 < (parseAiResponse aiDataOutOfRange).overall_score := by
  show 10 < round1 ((50 : ℚ) * wTechnical + 5 * wTransition + 5 * wCulture
    + 5 * wGrowth + 5 * wCompensation)
  rw [show (50 : ℚ) * wTechnical + 5 * wTransition + 5 * wCulture
      + 5 * wGrowth + 5 * wCompensation = 23 by
    norm_num [wTechnical, wTransition, wCulture, wGrowth, wCompensation]]
  rw [show round1 (23 : ℚ) = 23 by unfold round1; norm_num]
  norm_num

/-- C4 (amended): the five dimension weights sum to exactly 1; the
fallback path always returns an overall score in [0, 10]; the AI-parse
path returns an overall score in [0, 10] whenever each parsed
dimension score lies in [0, 10] (the parser does not clamp). -/
theorem C4_weights_sum_and_score_range :
    ((scoringWeights.map Prod.snd).sum = 1)
    ∧ (∀ j : IntelligentFilter.Job,
        0 ≤ (fallbackScoreOpportunity j).overall_score
        ∧ (fallbackScoreOpportunity j).overall_score ≤ 10)
    ∧ (∀ d : AiData,
        0 ≤ d.technical_score.getD 5 → d.technical_score.getD 5 ≤ 10 →
        0 ≤ d.transition_score.getD 5 → d.transition_score.getD 5 ≤ 10 →
        0 ≤ d.culture_score.getD 5 → d.culture_score.getD 5 ≤ 10 →
        0 ≤ d.growth_score.getD 5 → d.growth_score.getD 5 ≤ 10 →
        0 ≤ d.compensation_score.getD 5 → d.compensation_score.getD 5 ≤ 10 →
        0 ≤ (parseAiResponse d).overall_score
        ∧ (parseAiResponse d).overall_score ≤ 10) := by
  refine ⟨?_, ?_, ?_⟩
  · norm_num [scoringWeights, wTechnical, wTransition, wCulture, wGrowth,
      wCompensation]
  · intro j
    rw [fallback_overall_eq, fallbackOverall_def]
    obtain ⟨h0, h1⟩ := weighted_combination_mem
      (scoreTechnicalRelevance_mem (jobText j))
      (scoreTransitionFit_mem (jobText j) j.title)
      (scoreCompanyCulture_mem (jobText j))
      (scoreGrowthPotential_mem (jobText j))
      (scoreCompensation_mem j.salary_range)
    exact round1_mem h0 h1
  · intro d h1 h2 h3 h4 h5 h6 h7 h8 h9 h10
    show 0 ≤ round1 (d.technical_score.getD 5 * wTechnical
        + d.transition_score.getD 5 * wTransition
        + d.culture_score.getD 5 * wCulture
        + d.growth_score.getD 5 * wGrowth
        + d.compensation_score.getD 5 * wCompensation) ∧ _
    obtain ⟨g0, g1⟩ := weighted_combination_mem ⟨h1, h2⟩ ⟨h3, h4⟩ ⟨h5, h6⟩
      ⟨h7, h8⟩ ⟨h9, h10⟩
    exact round1_mem g0 g1

/-- C4 witness: the amended theorem applied to a concrete opportunity
and to the all-defaults parsed response. -/
theorem C4_witness :
    (0 ≤ (fallbackScoreOpportunity jobFiveAi).overall_score
      ∧ (fallbackScoreOpportunity jobFiveAi).overall_score ≤ 10)
    ∧ (0 ≤ (parseAiResponse aiDataDefaults).overall_score
      ∧ (parseAiResponse aiDataDefaults).overall_score ≤ 10) :=
  ⟨C4_weights_sum_and_score_range.2.1 jobFiveAi,
   C4_weights_sum_and_score_range.2.2 aiDataDefaults
     (by norm_num [aiDataDefaults]) (by norm_num [aiDataDefaults])
     (by norm_num [aiDataDefaults]) (by norm_num [aiDataDefaults])
     (by norm_num [aiDataDefaults]) (by norm_num [aiDataDefaults])
     (by norm_num [aiDataDefaults]) (by norm_num [aiDataDefaults])
     (by norm_num [aiDataDefaults]) (by norm_num [aiDataDefaults])⟩

namespace IntelligentFilter

theorem jobFiveAi_ai_count :
    keywordMatches aiKeywords (jobText jobFiveAi) = 5 := by decide

theorem jobFiveAi_infra_count :
    keywordMatches infrastructureKeywords (jobText jobFiveAi) = 0 := by decide

theorem jobFiveAi_tech : scoreTechnicalRelevance (jobText jobFiveAi) = 7 := by
  simp only [scoreTechnicalRelevance, jobFiveAi_ai_count, jobFiveAi_infra_count]
  norm_num

theorem jobFiveAi_transition :
    scoreTransitionFit (jobText jobFiveAi) jobFiveAi.title = 6 := by
  simp only [scoreTransitionFit]
  norm_num [show (["principal".data, "staff".data, "lead".data].any
      (fun t => hasSubstr (pyLower jobFiveAi.title) t)) = false from by decide,
    show (transitionTerms.any (fun t => hasSubstr (jobText jobFiveAi) t)) = false
      from by decide,
    show (seniorButOpen.any (fun t => hasSubstr (jobText jobFiveAi) t)) = false
      from by decide]

theorem jobFiveAi_culture : scoreCompanyCulture (jobText jobFiveAi) = 5 := by
  simp only [scoreCompanyCulture,
    show keywordMatches positiveCulture (jobText jobFiveAi) = 0 from by decide,
    show keywordMatches negativeCulture (jobText jobFiveAi) = 0 from by decide]
  norm_num

theorem jobFiveAi_growth : scoreGrowthPotential (jobText jobFiveAi) = 5 := by
  simp only [scoreGrowthPotential,
    show keywordMatches growthKeywords (jobText jobFiveAi) = 0 from by decide]
  norm_num

theorem jobFiveAi_overall : fallbackOverall jobFiveAi = 605 / 100 := by
  rw [fallbackOverall_def, jobFiveAi_tech, jobFiveAi_transition,
    jobFiveAi_culture, jobFiveAi_growth]
  simp only [jobFiveAi, scoreCompensation]
  norm_num [wTechnical, wTransition, wCulture, wGrowth, wCompensation]

theorem jobFiveAi_red_flags :
    (fallbackScoreOpportunity jobFiveAi).red_flags = [] := by decide

end IntelligentFilter

/-- C7 counterexample: an opportunity whose text matches exactly five
AI keywords and no other table, with zero red flags and no salary
field, reaches an unrounded overall of 6.05 in fallback mode — its
recommendation is RESEARCH, not APPLY, and its stored overall score is
below 8.0. -/
theorem C7_counterexample_five_keywords_research :
    keywordMatches aiKeywords (jobText jobFiveAi) = 5
    ∧ (fallbackScoreOpportunity jobFiveAi).red_flags = []
    ∧ (fallbackScoreOpportunity jobFiveAi).overall_score < 8
    ∧ (fallbackScoreOpportunity jobFiveAi).action_recommendation
        = "RESEARCH - Investigate further".data := by
  refine ⟨jobFiveAi_ai_count, jobFiveAi_red_flags, ?_, ?_⟩
  · rw [fallback_overall_eq, jobFiveAi_overall]
    unfold round1
    norm_num
  · rw [fallback_reco_eq, jobFiveAi_overall]
    unfold fallbackRecommendation
    rw [if_neg (by norm_num), if_pos (by norm_num)]

/-- C7 (amended): five AI-keyword matches force a technical score of at
least 7.0, and the recommendation thresholds are as specified
(unrounded overall ≥ 8.0 APPLY, ≥ 6.0 RESEARCH, otherwise PASS), but
five matches alone do not force overall ≥ 8.0: with every other
dimension at its default the overall is 6.05 and the recommendation is
RESEARCH. -/
theorem C7_five_keywords_thresholds :
    (∀ text : Str, 5 ≤ keywordMatches aiKeywords text →
      7 ≤ scoreTechnicalRelevance text)
    ∧ (∀ j : IntelligentFilter.Job, 8 ≤ fallbackOverall j →
        (fallbackScoreOpportunity j).action_recommendation
          = "APPLY - High-priority opportunity".data)
    ∧ (∀ j : IntelligentFilter.Job, 6 ≤ fallbackOverall j → fallbackOverall j < 8 →
        (fallbackScoreOpportunity j).action_recommendation
          = "RESEARCH - Investigate further".data)
    ∧ (∀ j : IntelligentFilter.Job, fallbackOverall j < 6 →
        (fallbackScoreOpportunity j).action_recommendation
          = "PASS - Focus on higher-scoring opportunities".data)
    ∧ ((fallbackScoreOpportunity jobFiveAi).red_flags = []
        ∧ fallbackOverall jobFiveAi = 605 / 100
        ∧ (fallbackScoreOpportunity jobFiveAi).overall_score < 8) := by
  refine ⟨?_, ?_, ?_, ?_, jobFiveAi_red_flags, jobFiveAi_overall, ?_⟩
  · intro text h5
    have h5q : (5 : ℚ) ≤ (keywordMatches aiKeywords text : ℚ) := by
      exact_mod_cast h5
    simp only [scoreTechnicalRelevance]
    refine le_min (le_add_of_le_of_nonneg ?_ ?_) (by norm_num)
    · exact le_min (by linarith) (by norm_num)
    · exact le_min (mul_nonneg (Nat.cast_nonneg _) (by norm_num)) (by norm_num)
  · intro j h8
    rw [fallback_reco_eq]
    unfold fallbackRecommendation
    rw [if_pos h8]
  · intro j h6 h8
    rw [fallback_reco_eq]
    unfold fallbackRecommendation
    rw [if_neg (by linarith), if_pos h6]
  · intro j h6
    rw [fallback_reco_eq]
    unfold fallbackRecommendation
    rw [if_neg (by linarith), if_neg (by linarith)]
  · rw [fallback_overall_eq, jobFiveAi_overall]
    unfold round1
    norm_num

/-- C7 witness: the amended theorem applied to the concrete
five-keyword opportunity. -/
theorem C7_witness :
    7 ≤ scoreTechnicalRelevance (jobText jobFiveAi)
    ∧ (fallbackScoreOpportunity jobFiveAi).action_recommendation
        = "RESEARCH - Investigate further".data :=
  ⟨C7_five_keywords_thresholds.1 (jobText jobFiveAi)
      (by rw [jobFiveAi_ai_count]),
   C7_five_keywords_thresholds.2.2.1 jobFiveAi
      (by rw [jobFiveAi_overall]; norm_num)
      (by rw [jobFiveAi_overall]; norm_num)⟩

/-- C1 counterexample: with an API key present and the parallel run
raising, `process_job_application` falls back to `_process_with_ai_engine`,
which raises `AttributeError` (no branch of `__init__` ever assigns
`self.ai_engine`), and that exception propagates — even though the
template path would have succeeded on the same inputs, so not every
mode failed. -/
theorem C1_counterexample_failure_propagates :
    processJobApplication (initEngine true) envParallelFails jdSample
        = .error .attributeMissingAiEngine
    ∧ processWithTemplateMode envParallelFails jdSample
        = .ok { job_information := jdSample, mode := none,
                content := .template tmplResults } :=
  ⟨rfl, rfl⟩

/-- C1 (amended): the only implemented downgrade step is
PARALLEL_AI to AI — when the parallel run raises, the caller retries
the AI engine, but that retry always raises `AttributeError` because
`self.ai_engine` is never initialized, and no further downgrade to
TEMPLATE exists, so the failure propagates to the caller (the code
defines no `GenerationFailed` exception).  TEMPLATE mode, selected at
construction when no credential exists, always succeeds from local
data. -/
theorem C1_downgrade_chain :
    (∀ (env : RunEnv) (jd : JobData) (e : Str),
      env.parallelOutcome = .error e →
      processJobApplication (initEngine true) env jd
        = .error .attributeMissingAiEngine)
    ∧ (∀ (env : RunEnv) (jd : JobData),
        processJobApplication (initEngine false) env jd
          = .ok { job_information := jd, mode := none,
                  content := .template env.templateResults }) := by
  constructor
  · intro env jd e he
    simp [processJobApplication, initEngine, processWithParallelAiEngine, he,
      processWithAiEngine]
  · intro env jd
    rfl

/-- C1 witness: the amended theorem applied to the concrete failing
run and to a concrete template run. -/
theorem C1_witness :
    processJobApplication (initEngine true) envParallelFails jdSample
        = .error .attributeMissingAiEngine
    ∧ processJobApplication (initEngine false) envParallelFails jdSample
        = .ok { job_information := jdSample, mode := none,
                content := .template tmplResults } :=
  ⟨C1_downgrade_chain.1 envParallelFails jdSample "api outage".data rfl,
   C1_downgrade_chain.2 envParallelFails jdSample⟩

/-- C2 counterexample: without a credential the engine returns the
template package, whose optional mode value is `none` — the
template-path package dictionary carries no `'mode'` key at all, so
the mode field does not equal `TEMPLATE`. -/
theorem C2_counterexample_no_mode_key :
    processJobApplication (initEngine false) envAllOk jdSample
        = .ok { job_information := jdSample, mode := none,
                content := .template tmplResults }
    ∧ (none : Option Str) ≠ some "TEMPLATE".data :=
  ⟨rfl, by decide⟩

/-- C2 (amended): without an API credential the engine always routes to
the template path, never raises, and returns a non-null package — but
the returned dictionary stores no `'mode'` key (only the AI and
parallel paths store one), so its mode value is absent rather than
`TEMPLATE`. -/
theorem C2_template_never_raises :
    ∀ (env : RunEnv) (jd : JobData),
      processJobApplication (initEngine false) env jd
        = .ok { job_information := jd, mode := none,
                content := .template env.templateResults } :=
  fun _ _ => rfl

/-- C3: in parallel-AI mode every failing research or content task is
caught at the task level and replaced by the marked fallback string
naming the task, while each of the other eight tasks contributes its
own stripped result unchanged, and the assembled package is still
produced — here stated with a failing phase-1 task
(`competitive_analysis`) and a failing phase-2 task
(`advanced_interview_prep`). -/
theorem C3_task_isolation :
    ∀ (ro : ResearchOutcomes) (co : ContentOutcomes) (jt cn : Str)
      (gt : ℚ) (calls : Nat) (e1 e2 : Str),
      ro.competitiveAnalysis = .error e1 →
      co.interviewPrep = .error e2 →
      (generateSophisticatedApplication jt cn ro co gt calls).competitive_analysis
          = fallbackString "competitive_analysis".data
      ∧ (generateSophisticatedApplication jt cn ro co gt calls).interview_preparation
          = fallbackString "advanced_interview_prep".data
      ∧ (generateSophisticatedApplication jt cn ro co gt calls).company_intelligence
          = sophisticatedGpt4Call ro.companyIntelligence "company_intelligence".data
      ∧ (generateSophisticatedApplication jt cn ro co gt calls).technical_alignment
          = sophisticatedGpt4Call ro.technicalAlignment "technical_alignment".data
      ∧ (generateSophisticatedApplication jt cn ro co gt calls).strategic_positioning
          = sophisticatedGpt4Call ro.strategicPositioning "strategic_positioning".data
      ∧ (generateSophisticatedApplication jt cn ro co gt calls).cover_letter
          = sophisticatedGpt4Call co.coverLetter "sophisticated_cover_letter".data
      ∧ (generateSophisticatedApplication jt cn ro co gt calls).executive_summary
          = sophisticatedGpt4Call co.executiveSummary "executive_summary".data
      ∧ (generateSophisticatedApplication jt cn ro co gt calls).success_strategy
          = sophisticatedGpt4Call co.successStrategy "success_strategy".data
      ∧ (generateSophisticatedApplication jt cn ro co gt calls).career_narrative
          = sophisticatedGpt4Call co.careerNarrative "career_narrative".data := by
  intro ro co jt cn gt calls e1 e2 h1 h2
  refine ⟨?_, ?_, rfl, rfl, rfl, rfl, rfl, rfl, rfl⟩
  · show sophisticatedGpt4Call ro.competitiveAnalysis "competitive_analysis".data
      = fallbackString "competitive_analysis".data
    rw [h1]
    rfl
  · show sophisticatedGpt4Call co.interviewPrep "advanced_interview_prep".data
      = fallbackString "advanced_interview_prep".data
    rw [h2]
    rfl

/-- C3 witness: the isolation theorem applied to a concrete run with
one failing task in each phase; the other tasks' results appear
stripped and unchanged. -/
theorem C3_witness :
    (generateSophisticatedApplication "AI Engineer".data "TechCorp".data
        researchOneFail contentOneFail 36 9).competitive_analysis
      = fallbackString "competitive_analysis".data
    ∧ (generateSophisticatedApplication "AI Engineer".data "TechCorp".data
        researchOneFail contentOneFail 36 9).interview_preparation
      = fallbackString "advanced_interview_prep".data
    ∧ (generateSophisticatedApplication "AI Engineer".data "TechCorp".data
        researchOneFail contentOneFail 36 9).company_intelligence
      = sophisticatedGpt4Call researchOneFail.companyIntelligence
          "company_intelligence".data
    ∧ (generateSophisticatedApplication "AI Engineer".data "TechCorp".data
        researchOneFail contentOneFail 36 9).technical_alignment
      = sophisticatedGpt4Call researchOneFail.technicalAlignment
          "technical_alignment".data
    ∧ (generateSophisticatedApplication "AI Engineer".data "TechCorp".data
        researchOneFail contentOneFail 36 9).strategic_positioning
      = sophisticatedGpt4Call researchOneFail.strategicPositioning
          "strategic_positioning".data
    ∧ (generateSophisticatedApplication "AI Engineer".data "TechCorp".data
        researchOneFail contentOneFail 36 9).cover_letter
      = sophisticatedGpt4Call contentOneFail.coverLetter
          "sophisticated_cover_letter".data
    ∧ (generateSophisticatedApplication "AI Engineer".data "TechCorp".data
        researchOneFail contentOneFail 36 9).executive_summary
      = sophisticatedGpt4Call contentOneFail.executiveSummary
          "executive_summary".data
    ∧ (generateSophisticatedApplication "AI Engineer".data "TechCorp".data
        researchOneFail contentOneFail 36 9).success_strategy
      = sophisticatedGpt4Call contentOneFail.successStrategy
          "success_strategy".data
    ∧ (generateSophisticatedApplication "AI Engineer".data "TechCorp".data
        researchOneFail contentOneFail 36 9).career_narrative
      = sophisticatedGpt4Call contentOneFail.careerNarrative
          "career_narrative".data :=
  C3_task_isolation researchOneFail contentOneFail "AI Engineer".data
    "TechCorp".data 36 9 "timeout".data "rate limit".data rfl rfl

namespace IntelligentFilter

theorem adjusted_pairJobA : adjustedScore pairJobA = 66 / 10 := by
  norm_num [adjustedScore, pairJobA, scoreSeven]
  decide

theorem adjusted_pairJobB : adjustedScore pairJobB = 7 := by
  norm_num [adjustedScore, pairJobB, scoreSeven]

theorem rank_red_flag_example :
    rankOpportunities [pairJobA, pairJobB] = [pairJobB, pairJobA] := by
  have hAB : ¬ rankLe pairJobA pairJobB := by
    simp only [rankLe, rankingKey, adjusted_pairJobA, adjusted_pairJobB]
    norm_num
  simp only [rankOpportunities, List.insertionSort, List.orderedInsert,
    if_neg hAB]

theorem rank_tie_keeps_input_order :
    rankOpportunities [pairOlder, pairNewer] = [pairOlder, pairNewer] := by
  have hON : rankLe pairOlder pairNewer := by
    simp only [rankLe, rankingKey]
    norm_num [adjustedScore, pairOlder, pairNewer, scoreSeven]
  simp only [rankOpportunities, List.insertionSort, List.orderedInsert,
    if_pos hON]

end IntelligentFilter

/-- C6 counterexample: two identically scored jobs tie exactly on the
ranking key — the `recency_bonus` is the constant 0.01 for every
`JobOpportunity` (the dataclass always has a `discovered_at`
attribute), not a function of the timestamp — and the stable sort then
keeps the input order, so the job discovered on 2025-01-01 stays ahead
of the one discovered on 2025-06-01: ties are not broken
newest-first. -/
theorem C6_counterexample_tie_ignores_recency :
    rankingKey pairOlder = rankingKey pairNewer
    ∧ rankOpportunities [pairOlder, pairNewer] = [pairOlder, pairNewer]
    ∧ pairOlder ≠ pairNewer := by
  refine ⟨?_, rank_tie_keeps_input_order, ?_⟩
  · norm_num [rankingKey, adjustedScore, pairOlder, pairNewer, scoreSeven]
  · have hne : pairOlder.1.title ≠ pairNewer.1.title := by decide
    exact fun h => hne (congrArg (fun p => p.1.title) h)

/-- C6 (amended): `rank_opportunities` sorts descending by the adjusted
score (overall +0.5 for confidence > 0.8 with technical ≥ 7.0, +0.3
for transition ≥ 8.0, −0.2 per red flag), and on the claim's example
the zero-red-flag job with overall 7.0 is placed before the
two-red-flag job with overall 7.0; but ties on the adjusted score keep
the input order (every job receives the same constant 0.01 bonus), not
newest-discovery-first. -/
theorem C6_rank_ordering :
    (∀ pairs : List (IntelligentFilter.Job × ScoringResult),
      List.Sorted (fun p q => adjustedScore q ≤ adjustedScore p)
        (rankOpportunities pairs))
    ∧ (∀ pairs : List (IntelligentFilter.Job × ScoringResult),
        (rankOpportunities pairs).Perm pairs)
    ∧ rankOpportunities [pairJobA, pairJobB] = [pairJobB, pairJobA]
    ∧ rankOpportunities [pairOlder, pairNewer] = [pairOlder, pairNewer] := by
  refine ⟨?_, ?_, rank_red_flag_example, rank_tie_keeps_input_order⟩
  · intro pairs
    have hs := List.sorted_insertionSort rankLe pairs
    refine hs.imp ?_
    intro p q hpq
    simp only [rankLe, rankingKey] at hpq
    linarith
  · intro pairs
    exact List.perm_insertionSort rankLe pairs

namespace JobDiscovery

theorem dedup_pair_aux (j1 j2 : JobOpportunity)
    (hk : dedupKey j1 = dedupKey j2) :
    deduplicateJobs [j1, j2]
      = if sourcePriority j1.source < sourcePriority j2.source then [j2]
        else [j1] := by
  unfold deduplicateJobs
  simp only [List.foldl]
  have h1 : dedupStep ([], []) j1 = ([(dedupKey j1, j1)], [j1]) := by
    simp [dedupStep]
  rw [h1]
  have hfind : List.find? (fun e => decide (e.1 = dedupKey j2))
      [(dedupKey j1, j1)] = some (dedupKey j1, j1) := by
    simp [List.find?, hk]
  simp only [dedupStep, hfind]
  by_cases hp : sourcePriority j1.source < sourcePriority j2.source
  · rw [if_pos hp, if_pos hp]
    simp [List.erase_cons_head]
  · rw [if_neg hp, if_neg hp]

end JobDiscovery

/-- C8: when exactly two records collide on the canonical dedup key,
`_deduplicate_jobs` retains the one from the strictly higher-priority
source (and the incumbent on ties); in particular a linkedin record
(priority 3) is retained against an indeed record (priority 2) in
either input order. -/
theorem C8_dedup_retains_higher_priority :
    (∀ j1 j2 : JobOpportunity, dedupKey j1 = dedupKey j2 →
      deduplicateJobs [j1, j2]
        = if sourcePriority j1.source < sourcePriority j2.source then [j2]
          else [j1])
    ∧ deduplicateJobs [jobLinkedin, jobIndeed] = [jobLinkedin]
    ∧ deduplicateJobs [jobIndeed, jobLinkedin] = [jobLinkedin] := by
  refine ⟨JobDiscovery.dedup_pair_aux, ?_, ?_⟩
  · rw [JobDiscovery.dedup_pair_aux jobLinkedin jobIndeed (by decide)]
    rw [if_neg (by decide)]
  · rw [JobDiscovery.dedup_pair_aux jobIndeed jobLinkedin (by decide)]
    rw [if_pos (by decide)]

/-- C8 witness: the pair lemma applied to the concrete linkedin and
indeed records. -/
theorem C8_witness :
    deduplicateJobs [jobLinkedin, jobIndeed]
      = if sourcePriority jobLinkedin.source < sourcePriority jobIndeed.source
        then [jobIndeed] else [jobLinkedin] :=
  C8_dedup_retains_higher_priority.1 jobLinkedin jobIndeed (by decide)

/-- C9: saving the same record twice leaves exactly one stored row with
that identity — the second `INSERT OR REPLACE` replaces the first
instead of duplicating it, making `save_job` idempotent. -/
theorem C9_save_idempotent :
    ∀ (db : List JobOpportunity) (j : JobOpportunity),
      (saveJob (saveJob db j) j).countP
          (fun r => decide (r.job_id = j.job_id)) = 1
      ∧ saveJob (saveJob db j) j = saveJob db j := by
  intro db j
  have hsecond : saveJob (saveJob db j) j = saveJob db j := by
    unfold saveJob
    rw [List.filter_append]
    simp [List.filter_filter]
  refine ⟨?_, hsecond⟩
  rw [hsecond]
  unfold saveJob
  rw [List.countP_append]
  have h0 : (db.filter (fun r => ! decide (r.job_id = j.job_id))).countP
      (fun r => decide (r.job_id = j.job_id)) = 0 := by
    rw [List.countP_eq_zero]
    intro a ha
    have := List.of_mem_filter ha
    simpa using this
  rw [h0]
  simp

/-- C10 counterexample: two stored rows with equal relevance score and
different discovery times come back newest-first (`ORDER BY
relevance_score DESC, discovered_at DESC`), not oldest-first as an
ascending tiebreak would require; the rows differ, so the order is
observable. -/
theorem C10_counterexample_tiebreak_descending :
    getJobsByStatus [rowOlder, rowNewer] "discovered".data none
        = [rowNewer, rowOlder]
    ∧ rowOlder.discovered_at ≠ rowNewer.discovered_at := by
  constructor
  · have hfilter : ([rowOlder, rowNewer].filter
        (fun r => decide (r.status = "discovered".data)))
          = [rowOlder, rowNewer] := by decide
    have hno : ¬ rowOrder rowOlder rowNewer := by
      intro h
      rcases h with h | ⟨he, hd⟩
      · norm_num [rowOlder, rowNewer] at h
      · exact absurd hd (by decide)
    unfold getJobsByStatus
    rw [hfilter]
    simp only [List.insertionSort, List.orderedInsert, if_neg hno]
    rfl
  · decide

/-- C10 (amended): `get_jobs_by_status` returns the stored rows of the
requested status ordered by relevance score descending with discovery
time descending — newest first — as the tiebreak; a truthy limit
takes a prefix of that order and a zero or missing limit returns
everything. -/
theorem C10_query_ordering :
    (∀ (db : List JobOpportunity) (status : Str),
      List.Sorted rowOrder (getJobsByStatus db status none)
      ∧ (getJobsByStatus db status none).Perm
          (db.filter (fun r => decide (r.status = status))))
    ∧ (∀ (db : List JobOpportunity) (status : Str) (n : Nat),
        getJobsByStatus db status (some n)
          = if n = 0 then getJobsByStatus db status none
            else (getJobsByStatus db status none).take n)
    ∧ getJobsByStatus [rowOlder, rowNewer] "discovered".data none
        = [rowNewer, rowOlder] := by
  refine ⟨?_, ?_, ?_⟩
  · intro db status
    exact ⟨List.sorted_insertionSort rowOrder _,
      List.perm_insertionSort rowOrder _⟩
  · intro db status n
    by_cases h : n = 0
    · simp [getJobsByStatus, pyLimit, h]
    · simp [getJobsByStatus, pyLimit, h]
  · have hfilter : ([rowOlder, rowNewer].filter
        (fun r => decide (r.status = "discovered".data)))
          = [rowOlder, rowNewer] := by decide
    have hno : ¬ rowOrder rowOlder rowNewer := by
      intro h
      rcases h with h | ⟨he, hd⟩
      · norm_num [rowOlder, rowNewer] at h
      · exact absurd hd (by decide)
    unfold getJobsByStatus
    rw [hfilter]
    simp only [List.insertionSort, List.orderedInsert, if_neg hno]
    rfl

set_option maxRecDepth 20000

/-- C5 counterexample: two records with the same normalized title and
company hash to different job ids when their sources differ — the MD5
input string includes the source, so identity is not
source-independent (the digests here match
`hashlib.md5` on the same inputs). -/
theorem C5_counterexample_source_changes_id :
    generateJobId "Engineer".data "Acme".data "linkedin".data
        = "0db3c0801e5e".data
    ∧ generateJobId "Engineer".data "Acme".data "indeed".data
        = "f25eced23650".data
    ∧ generateJobId "Engineer".data "Acme".data "linkedin".data
        ≠ generateJobId "Engineer".data "Acme".data "indeed".data := by
  refine ⟨by decide, by decide, by decide⟩

/-- C5 (amended): the job id is the deterministic truncated MD5 of
lower-cased title, lower-cased company, and the source — identical
between the engine and scraper copies of `_generate_job_id`, but
source-dependent: the same title and company hash differently under
different sources.  Source-independent deduplication is instead
provided by the `_deduplicate_jobs` similarity key, which omits the
source. -/
theorem C5_identity_deterministic_but_source_dependent :
    (∀ t c s : Str, generateJobId t c s = scraperGenerateJobId t c s)
    ∧ (∀ j1 j2 : JobOpportunity, j1.title = j2.title →
        j1.company = j2.company → dedupKey j1 = dedupKey j2)
    ∧ generateJobId "Engineer".data "Acme".data "linkedin".data
        ≠ generateJobId "Engineer".data "Acme".data "indeed".data := by
  refine ⟨fun t c s => rfl, ?_, by decide⟩
  intro j1 j2 ht hc
  unfold dedupKey
  rw [ht, hc]

/-- C5 witness: the amended theorem applied to the concrete colliding
linkedin and indeed records, whose dedup keys agree. -/
theorem C5_witness :
    dedupKey jobLinkedin = dedupKey jobIndeed :=
  C5_identity_deterministic_but_source_dependent.2.1 jobLinkedin jobIndeed
    rfl rfl
